import Mathlib

/-!
Shallow embedding of `src/jdl/validators/jdl-without-application-validator.ts`
from generator-jhipster: the JDL business-rule validator used when the model
carries no application descriptors.  The JDL object model (entities, fields,
validations, relationships, enums, deployments, options) is embedded as plain
inductive structures; `checkForErrors` is embedded as a function returning the
ordered list of warnings it logs together with the first fatal error it
throws, if any (`none` on success).

Collaborators that live outside the provided sources (the reserved-keyword
tables, the field-type tables, and the per-node shape validators) are either
taken as parameters (a `Tables` record of classification predicates) or
modelled from the spec, as marked on each definition.
-/

namespace JdlWithoutApplicationValidator

/-- A validation (constraint) node attached to a field: a name from a fixed
vocabulary such as `required`, `min`, `pattern`. -/
structure JDLValidation where
  name : String
  deriving Repr, DecidableEq

/-- A field node: a name, a declared type tag and its validation nodes. -/
structure JDLField where
  name : String
  type : String
  validations : List JDLValidation
  deriving Repr, DecidableEq

/-- An entity node: a name, a table name and an ordered mapping from field
keys to field nodes (the JS object `jdlEntity.fields`, whose keys are
iterated with `Object.keys`). -/
structure JDLEntity where
  name : String
  tableName : String
  fields : List (String × JDLField)
  deriving Repr, DecidableEq

/-- A relationship node: a directional edge between two entity names, with a
cardinality tag and the optional injected field on each side. -/
structure JDLRelationship where
  «from» : String
  «to» : String
  type : String
  injectedFieldInFrom : Option String
  injectedFieldInTo : Option String
  deriving Repr, DecidableEq

/-- An enumeration node: a name and its value labels. -/
structure JDLEnum where
  name : String
  values : List String
  deriving Repr, DecidableEq

/-- A deployment node, validated only for internal shape. -/
structure JDLDeployment where
  deploymentType : String
  deriving Repr, DecidableEq

/-- The discriminant returned by `option.getType()`: unary or binary. -/
inductive JDLOptionType where
  | UNARY
  | BINARY
  deriving Repr, DecidableEq

/-- An option node: its kind discriminant and its name. -/
structure JDLOption where
  type : JDLOptionType
  name : String
  deriving Repr, DecidableEq

/-- The aggregate JDL object: entities, relationships, enums, deployments and
options, as consumed by the without-application validator. -/
structure JDLObject where
  entities : List JDLEntity
  relationships : List JDLRelationship
  enums : List JDLEnum
  deployments : List JDLDeployment
  options : List JDLOption
  deriving Repr, DecidableEq

/-- Counterpart of `jdlObject.getEntityQuantity()`. -/
def JDLObject.getEntityQuantity (j : JDLObject) : Nat :=
  j.entities.length

/-- Counterpart of `jdlObject.getEntity(name)`: the declared entity of that
name, if any (entity names are unique in a model). -/
def JDLObject.getEntity (j : JDLObject) (name : String) : Option JDLEntity :=
  j.entities.find? (fun e => e.name == name)

/-- Counterpart of `jdlObject.hasEnum(name)`. -/
def JDLObject.hasEnum (j : JDLObject) (name : String) : Bool :=
  j.enums.any (fun e => e.name == name)

/-- Counterpart of `jdlObject.getRelationshipQuantity()`. -/
def JDLObject.getRelationshipQuantity (j : JDLObject) : Nat :=
  j.relationships.length

/-- Counterpart of `jdlObject.getEnumQuantity()`. -/
def JDLObject.getEnumQuantity (j : JDLObject) : Nat :=
  j.enums.length

/-- Counterpart of `jdlObject.getDeploymentQuantity()`. -/
def JDLObject.getDeploymentQuantity (j : JDLObject) : Nat :=
  j.deployments.length

/-- Counterpart of `jdlObject.getOptionQuantity()`. -/
def JDLObject.getOptionQuantity (j : JDLObject) : Nat :=
  j.options.length

/-- Counterpart of `jdlObject.getOptionsForName(name)`: every option (unary or
binary) whose name matches. -/
def JDLObject.getOptionsForName (j : JDLObject) (name : String) : List JDLOption :=
  j.options.filter (fun o => o.name == name)

/-- The application settings bag passed to `createValidator`.  `databaseType`
is `none` when the caller leaves it out (JS `undefined`, falsy); likewise
`applicationType`.  `skippedUserManagement` defaults to false, `blueprints`
to the empty list. -/
structure ApplicationSettings where
  applicationType : Option String
  databaseType : Option String
  skippedUserManagement : Bool
  blueprints : List String
  deriving Repr, DecidableEq

/-- Modelled from the spec: the distinguished SQL storage-family value of the
`databaseTypes` table (the table module itself is not under src/); only its
identity matters to the validator. -/
def SQL : String := "sql"

/-- Modelled from the spec: the distinguished Cassandra value of the
`databaseTypes` table (the table module itself is not under src/). -/
def CASSANDRA : String := "cassandra"

/-- Modelled from the spec: the gateway application type of the
`applicationTypes` table (the table module itself is not under src/). -/
def GATEWAY : String := "gateway"

/-- Modelled from the spec: the name of the pagination binary option,
`binaryOptions.Options.PAGINATION` (the table module is not under src/). -/
def PAGINATION : String := "pagination"

/-- Modelled from the spec: `OptionNames.SKIP_USER_MANAGEMENT` from the
`applicationOptions` table (the table module is not under src/). -/
def SKIP_USER_MANAGEMENT : String := "skipUserManagement"

/-- The classification tables imported from `../jhipster/index.mjs` (reserved
keyword tables and field-type tables) together with the recognized unary and
binary option-name tables consulted by the option shape validators; none of
these modules is under src/, so the embedding is parametric in them and every
theorem holds for any instantiation. -/
structure Tables where
  isReservedClassName : String → Bool
  isReservedTableName : String → Option String → Bool
  isReservedFieldName : String → Bool
  isReservedPaginationWords : String → Bool
  getIsType : Option String → String → Bool
  hasValidation : String → String → Bool → Bool
  isRecognizedUnaryOptionName : String → Bool
  isRecognizedBinaryOptionName : String → Bool

/-- Template of the combined absent-endpoint error thrown by
`checkForAbsentEntities`, with the `from` name, the `to` name, the joined
absent names and the agreed verb interpolated. -/
def absentEntitiesMessage (f t joined verb : String) : String :=
  "In the relationship between " ++ f ++ " and " ++ t ++ ", " ++ joined ++ " " ++ verb
    ++ " not declared."

/-- Template of the fatal reserved entity class-name error. -/
def reservedClassNameMessage (n : String) : String :=
  "The name '" ++ n ++ "' is a reserved keyword and can not be used as an entity class name."

/-- Template of the advisory reserved table-name warning logged by
`checkForEntityErrors`. -/
def reservedTableNameMessage (tname : String) : String :=
  "The table name '" ++ tname
    ++ "' is a reserved keyword, so it will be prefixed with the value of 'jhiPrefix'."

/-- Template of the advisory reserved field-name warning logged by
`checkForFieldErrors`. -/
def reservedFieldNameMessage (fname : String) : String :=
  "The name '" ++ fname
    ++ "' is a reserved keyword, so it will be prefixed with the value of 'jhiPrefix'."

/-- Template of the fatal reserved pagination-word error thrown by
`checkForFieldErrors` under the SQL database type. -/
def paginationWordMessage (fieldName entityName : String) : String :=
  "Field name '" ++ fieldName ++ "' found in " ++ entityName
    ++ " is a reserved keyword, as it is used by Spring for pagination in the URL."

/-- Template of the fatal unknown field-type error thrown by
`checkForFieldErrors`. -/
def unknownTypeMessage (ftype fieldName entityName : String) : String :=
  "The type '" ++ ftype ++ "' is an unknown field type for field '" ++ fieldName
    ++ "' of entity '" ++ entityName ++ "'."

/-- Template of the fatal unsupported-validation error thrown by
`checkForValidationErrors`. -/
def unsupportedValidationMessage (vname ftype : String) : String :=
  "The validation '" ++ vname ++ "' isn't supported for the type '" ++ ftype ++ "'."

/-- Template of the fatal error thrown by the option shape validators on an
option whose name is not in the recognized table; the spec fixes the failure
but not its wording, which is therefore fixed here. -/
def unrecognizedOptionNameMessage (n : String) : String :=
  "The option's name '" ++ n ++ "' is not recognized."

/-- Counterpart of `String.prototype.toLowerCase()` as applied to entity
names: each character is lowercased (ASCII-wise, which covers JDL entity
identifiers). -/
def toLowerCase (s : String) : String :=
  ⟨s.data.map Char.toLower⟩

/-- Counterpart of `isUserManagementEntity(entityName)`. -/
def isUserManagementEntity (entityName : String) : Bool :=
  toLowerCase entityName == "user" || toLowerCase entityName == "authority"

/-- Counterpart of `checkForAbsentEntities({jdlRelationship, doesEntityExist,
skippedUserManagementOption})`: collects the absent endpoints (the `to`
endpoint is exempt when it is a user-management pseudo-entity and the
skipped-user-management option is falsy) and throws a combined message when
any endpoint is absent. -/
def checkForAbsentEntities (jdlRelationship : JDLRelationship)
    (doesEntityExist : String → Bool) (skippedUserManagementOption : Bool) :
    Option String :=
  let f := jdlRelationship.«from»
  let t := jdlRelationship.«to»
  let absentEntities : List String :=
    (if !doesEntityExist f then [f] else []) ++
      (if !doesEntityExist t && (!isUserManagementEntity t || skippedUserManagementOption)
        then [t] else [])
  if absentEntities.length != 0 then
    let joined := String.intercalate " and " absentEntities
    let verb := if absentEntities.length == 1 then "is" else "are"
    some (absentEntitiesMessage f t joined verb)
  else
    none

/-- Counterpart of `checkForPaginationInAppWithCassandra(jdlOption,
applicationSettings)`. -/
def checkForPaginationInAppWithCassandra (jdlOption : JDLOption)
    (applicationSettings : ApplicationSettings) : Option String :=
  if applicationSettings.databaseType == some CASSANDRA && jdlOption.name == PAGINATION then
    some "Pagination isn't allowed when the application uses Cassandra."
  else
    none

/-- Counterpart of `getTypeCheckingFunction(entityName, applicationSettings)`:
accepts every type on gateway applications, otherwise the active database
type's type universe. -/
def getTypeCheckingFunction (T : Tables) (_entityName : String)
    (applicationSettings : ApplicationSettings) : String → Bool :=
  if applicationSettings.applicationType == some GATEWAY then
    fun _ => true
  else
    T.getIsType applicationSettings.databaseType

/-- Modelled from the spec: `EntityValidator#validate` (entity-validator.js is
not under src/).  Shape validation checks required attributes, which the
embedding's total types guarantee; the fatal reserved-class-name check on
entity names is specified with its exact message. -/
def EntityValidator.validate (T : Tables) (jdlEntity : JDLEntity) : Option String :=
  let n := jdlEntity.name
  if T.isReservedClassName n then
    some (reservedClassNameMessage n)
  else
    none

/-- Modelled from the spec: `FieldValidator#validate` (field-validator.js is
not under src/) checks only the field node's own required attributes, which
the embedding's total types guarantee, so it always succeeds here. -/
def FieldValidator.validate (_jdlField : JDLField) : Option String :=
  none

/-- Modelled from the spec: `ValidationValidator#validate`
(validation-validator.js is not under src/) checks only the validation node's
own required attributes, which the embedding's total types guarantee. -/
def ValidationValidator.validate (_jdlValidation : JDLValidation) : Option String :=
  none

/-- Modelled from the spec: `RelationshipValidator#validate`
(relationship-validator.js is not under src/); per the spec a relationship
missing both injected-field names violates its own shape, other required
attributes being guaranteed by the embedding's total types. -/
def RelationshipValidator.validate (jdlRelationship : JDLRelationship)
    (_skippedUserManagement : Bool) : Option String :=
  if jdlRelationship.injectedFieldInFrom.isNone && jdlRelationship.injectedFieldInTo.isNone then
    some "The relationship is missing both its injected field names."
  else
    none

/-- Modelled from the spec: `EnumValidator#validate` (enum-validator.js is
not under src/) checks only the enum node's own required attributes, which
the embedding's total types guarantee. -/
def EnumValidator.validate (_jdlEnum : JDLEnum) : Option String :=
  none

/-- Modelled from the spec: `DeploymentValidator#validate`
(deployment-validator.js is not under src/) checks only the deployment node's
own shape, which the embedding's total types guarantee. -/
def DeploymentValidator.validate (_deployment : JDLDeployment) : Option String :=
  none

/-- Modelled from the spec: `UnaryOptionValidator#validate`
(unary-option-validator.js is not under src/); per the spec an option with an
unrecognized name violates its own shape, the remaining required attributes
being guaranteed by the embedding's total types.  The recognized unary
option-name table is a parameter. -/
def UnaryOptionValidator.validate (T : Tables) (jdlOption : JDLOption) : Option String :=
  if T.isRecognizedUnaryOptionName jdlOption.name then none
  else some (unrecognizedOptionNameMessage jdlOption.name)

/-- Modelled from the spec: `BinaryOptionValidator#validate`
(binary-option-validator.js is not under src/); per the spec an option with an
unrecognized name violates its own shape, the remaining required attributes
being guaranteed by the embedding's total types.  The recognized binary
option-name table is a parameter. -/
def BinaryOptionValidator.validate (T : Tables) (jdlOption : JDLOption) : Option String :=
  if T.isRecognizedBinaryOptionName jdlOption.name then none
  else some (unrecognizedOptionNameMessage jdlOption.name)

/-- Loop body of `checkForValidationErrors`: the `jdlField.forEachValidation`
iteration, which aborts on the first failing validation node. -/
def checkForValidationErrorsLoop (T : Tables) (jdlField : JDLField) (isAnEnum : Bool) :
    List JDLValidation → Option String
  | [] => none
  | jdlValidation :: rest =>
    match ValidationValidator.validate jdlValidation with
    | some e => some e
    | none =>
      if !T.hasValidation jdlField.type jdlValidation.name isAnEnum then
        some (unsupportedValidationMessage jdlValidation.name jdlField.type)
      else
        checkForValidationErrorsLoop T jdlField isAnEnum rest

/-- Counterpart of `checkForValidationErrors(jdlField, isAnEnum)`: runs the
shape validator on each validation node and fails on a (type, validation,
is-enum) combination outside the support matrix. -/
def checkForValidationErrors (T : Tables) (jdlField : JDLField) (isAnEnum : Bool) :
    Option String :=
  checkForValidationErrorsLoop T jdlField isAnEnum jdlField.validations

/-- Loop body of `checkForFieldErrors`: the `Object.keys(jdlFields).forEach`
iteration over (field key, field node) pairs.  Returns the warnings logged in
order, paired with the first thrown error if any. -/
def checkForFieldErrorsLoop (T : Tables) (applicationSettings : ApplicationSettings)
    (j : JDLObject) (entityName : String) (filtering : Bool) :
    List (String × JDLField) → List String × Option String
  | [] => ([], none)
  | (fieldName, jdlField) :: rest =>
    match FieldValidator.validate jdlField with
    | some e => ([], some e)
    | none =>
      let fname := jdlField.name
      let warns :=
        if T.isReservedFieldName fname then [reservedFieldNameMessage fname] else []
      if filtering && T.isReservedPaginationWords fname then
        (warns, some (paginationWordMessage fieldName entityName))
      else
        let typeCheckingFunction := getTypeCheckingFunction T entityName applicationSettings
        let ftype := jdlField.type
        if !j.hasEnum ftype && !typeCheckingFunction ftype then
          (warns, some (unknownTypeMessage ftype fieldName entityName))
        else
          let isAnEnum := j.hasEnum ftype
          match checkForValidationErrors T jdlField isAnEnum with
          | some e => (warns, some e)
          | none =>
            let (w2, r2) := checkForFieldErrorsLoop T applicationSettings j entityName filtering rest
            (warns ++ w2, r2)

/-- Counterpart of `checkForFieldErrors(entityName, jdlFields)`. -/
def checkForFieldErrors (T : Tables) (applicationSettings : ApplicationSettings)
    (j : JDLObject) (entityName : String) (jdlFields : List (String × JDLField)) :
    List String × Option String :=
  let filtering := applicationSettings.databaseType == some SQL
  checkForFieldErrorsLoop T applicationSettings j entityName filtering jdlFields

/-- Loop body of `checkForEntityErrors`: the `jdlObject.forEachEntity`
iteration. -/
def checkForEntityErrorsLoop (T : Tables) (applicationSettings : ApplicationSettings)
    (j : JDLObject) : List JDLEntity → List String × Option String
  | [] => ([], none)
  | jdlEntity :: rest =>
    match EntityValidator.validate T jdlEntity with
    | some e => ([], some e)
    | none =>
      let tname := jdlEntity.tableName
      let warns :=
        if T.isReservedTableName tname applicationSettings.databaseType then
          [reservedTableNameMessage tname]
        else []
      let (w2, r2) := checkForFieldErrors T applicationSettings j jdlEntity.name jdlEntity.fields
      match r2 with
      | some e => (warns ++ w2, some e)
      | none =>
        let (w3, r3) := checkForEntityErrorsLoop T applicationSettings j rest
        (warns ++ w2 ++ w3, r3)

/-- Counterpart of `checkForEntityErrors()`: skipped when the model declares
no entity; otherwise requires a database type, then validates each entity
(shape, reserved table-name warning, field checks). -/
def checkForEntityErrors (T : Tables) (applicationSettings : ApplicationSettings)
    (j : JDLObject) : List String × Option String :=
  if j.getEntityQuantity == 0 then ([], none)
  else if applicationSettings.databaseType.isNone then
    ([], some "Database type is required to validate entities.")
  else
    checkForEntityErrorsLoop T applicationSettings j j.entities

/-- Loop body of `checkForRelationshipErrors`: the
`jdlObject.forEachRelationship` iteration. -/
def checkForRelationshipErrorsLoop (j : JDLObject) (skippedUserManagement : Bool) :
    List JDLRelationship → Option String
  | [] => none
  | jdlRelationship :: rest =>
    match RelationshipValidator.validate jdlRelationship skippedUserManagement with
    | some e => some e
    | none =>
      match checkForAbsentEntities jdlRelationship
          (fun entityName => (j.getEntity entityName).isSome) skippedUserManagement with
      | some e => some e
      | none => checkForRelationshipErrorsLoop j skippedUserManagement rest

/-- Counterpart of `checkForRelationshipErrors()`: skipped when the model has
no relationship; the effective skipped-user-management flag is the settings
flag or the presence of a `skipUserManagement` option in the model. -/
def checkForRelationshipErrors (applicationSettings : ApplicationSettings)
    (j : JDLObject) : Option String :=
  if j.getRelationshipQuantity == 0 then none
  else
    let skippedUserManagement :=
      applicationSettings.skippedUserManagement ||
        !(j.getOptionsForName SKIP_USER_MANAGEMENT).isEmpty
    checkForRelationshipErrorsLoop j skippedUserManagement j.relationships

/-- Loop body of `checkForEnumErrors`: the `jdlObject.forEachEnum`
iteration. -/
def checkForEnumErrorsLoop : List JDLEnum → Option String
  | [] => none
  | jdlEnum :: rest =>
    match EnumValidator.validate jdlEnum with
    | some e => some e
    | none => checkForEnumErrorsLoop rest

/-- Counterpart of `checkForEnumErrors()`. -/
def checkForEnumErrors (j : JDLObject) : Option String :=
  if j.getEnumQuantity == 0 then none
  else checkForEnumErrorsLoop j.enums

/-- Loop body of `checkDeploymentsErrors`: the `jdlObject.forEachDeployment`
iteration. -/
def checkDeploymentsErrorsLoop : List JDLDeployment → Option String
  | [] => none
  | deployment :: rest =>
    match DeploymentValidator.validate deployment with
    | some e => some e
    | none => checkDeploymentsErrorsLoop rest

/-- Counterpart of `checkDeploymentsErrors()`. -/
def checkDeploymentsErrors (j : JDLObject) : Option String :=
  if j.getDeploymentQuantity == 0 then none
  else checkDeploymentsErrorsLoop j.deployments

/-- The kind dispatch `option.getType() === 'UNARY'` of `checkForOptionErrors`:
an option's shape is validated by the validator matching its declared kind. -/
def optionShapeValidation (T : Tables) (option : JDLOption) : Option String :=
  if option.type == JDLOptionType.UNARY then UnaryOptionValidator.validate T option
  else BinaryOptionValidator.validate T option

/-- Loop body of `checkForOptionErrors`: the `jdlObject.getOptions().forEach`
iteration, dispatching on the option kind before the Cassandra pagination
cross-check. -/
def checkForOptionErrorsLoop (T : Tables) (applicationSettings : ApplicationSettings) :
    List JDLOption → Option String
  | [] => none
  | option :: rest =>
    match optionShapeValidation T option with
    | some e => some e
    | none =>
      match checkForPaginationInAppWithCassandra option applicationSettings with
      | some e => some e
      | none => checkForOptionErrorsLoop T applicationSettings rest

/-- Counterpart of `checkForOptionErrors()`. -/
def checkForOptionErrors (T : Tables) (applicationSettings : ApplicationSettings)
    (j : JDLObject) : Option String :=
  if j.getOptionQuantity == 0 then none
  else checkForOptionErrorsLoop T applicationSettings j.options

/-- Counterpart of the `checkForErrors()` closure returned by
`createValidator(jdlObject, applicationSettings, logger)`: when the settings
carry a non-empty blueprint list the whole pipeline is replaced by one
warning; otherwise the five phases run in order, aborting at the first fatal
error.  The result is (ordered warnings logged, first thrown error if any). -/
def checkForErrors (T : Tables) (j : JDLObject)
    (applicationSettings : ApplicationSettings) : List String × Option String :=
  if !applicationSettings.blueprints.isEmpty then
    (["Blueprints are being used, the JDL validation phase is skipped."], none)
  else
    let (w1, r1) := checkForEntityErrors T applicationSettings j
    match r1 with
    | some e => (w1, some e)
    | none =>
      match checkForRelationshipErrors applicationSettings j with
      | some e => (w1, some e)
      | none =>
        match checkForEnumErrors j with
        | some e => (w1, some e)
        | none =>
          match checkDeploymentsErrors j with
          | some e => (w1, some e)
          | none =>
            match checkForOptionErrors T applicationSettings j with
            | some e => (w1, some e)
            | none => (w1, none)

/-- A concrete instantiation of the classification tables, used to evaluate
the validator on closed inputs: `Continue` is a reserved class name (the
spec's own example), `reservedTable` a reserved table name, `reservedField` a
reserved field name, `page` a pagination-sensitive word, `String` the only
known field type, `required` the only supported validation,
`skipUserManagement` and `skipClient` the recognized unary option names, and
`dto`, `service` and `pagination` the recognized binary option names. -/
def sampleTables : Tables where
  isReservedClassName := fun n => n == "Continue"
  isReservedTableName := fun n _ => n == "reservedTable"
  isReservedFieldName := fun n => n == "reservedField"
  isReservedPaginationWords := fun n => n == "page"
  getIsType := fun _ t => t == "String"
  hasValidation := fun _ v _ => v == "required"
  isRecognizedUnaryOptionName := fun n => n == "skipUserManagement" || n == "skipClient"
  isRecognizedBinaryOptionName := fun n => n == "dto" || n == "service" || n == "pagination"

/-- The enum phase's loop never fails: the shape validator accepts every
embedded enum node. -/
theorem checkForEnumErrorsLoop_eq_none (l : List JDLEnum) :
    checkForEnumErrorsLoop l = none := by
  induction l with
  | nil => rfl
  | cons e rest ih => simpa [checkForEnumErrorsLoop, EnumValidator.validate] using ih

/-- The deployment phase's loop never fails: the shape validator accepts
every embedded deployment node. -/
theorem checkDeploymentsErrorsLoop_eq_none (l : List JDLDeployment) :
    checkDeploymentsErrorsLoop l = none := by
  induction l with
  | nil => rfl
  | cons d rest ih =>
    simpa [checkDeploymentsErrorsLoop, DeploymentValidator.validate] using ih

/-- C7: when the settings carry a non-empty blueprints list, `checkForErrors`
succeeds for every model, logs exactly the blueprint advisory warning, and
performs no other validation. -/
theorem blueprints_skip_validation_phase (T : Tables) (j : JDLObject)
    (s : ApplicationSettings) (h : s.blueprints ≠ []) :
    checkForErrors T j s =
      (["Blueprints are being used, the JDL validation phase is skipped."], none) := by
  unfold checkForErrors
  simp [List.isEmpty_iff, h]

/-- Witness for C7 at a concrete blueprint list and model. -/
theorem blueprints_skip_validation_phase_witness :
    checkForErrors sampleTables ⟨[], [], [], [], []⟩
        ⟨none, none, false, ["generator-jhipster-vuejs"]⟩ =
      (["Blueprints are being used, the JDL validation phase is skipped."], none) :=
  blueprints_skip_validation_phase sampleTables _ _ (by decide)

/-- C8 (counterexample): the claim quantifies over every settings object, but
a settings object carrying a non-empty blueprints list makes `checkForErrors`
on the empty model log the blueprint advisory warning, so it does not log
nothing. -/
theorem empty_model_logging_claim_refuted :
    checkForErrors sampleTables ⟨[], [], [], [], []⟩
        ⟨none, none, false, ["generator-jhipster-myblueprint"]⟩ =
      (["Blueprints are being used, the JDL validation phase is skipped."], none) ∧
    (checkForErrors sampleTables ⟨[], [], [], [], []⟩
        ⟨none, none, false, ["generator-jhipster-myblueprint"]⟩).1 ≠ [] := by
  exact ⟨rfl, by decide⟩

/-- C8 (amended): for every settings object whose blueprints list is empty —
including one with no database type — `checkForErrors` on a model with zero
entities, relationships, enumerations, deployments and options succeeds,
throwing nothing and logging nothing: every phase is skipped at count zero,
so the entities-only database-type requirement never runs; moreover, for
every settings object whatsoever, the run on the empty model throws
nothing. -/
theorem empty_model_checkForErrors_succeeds (T : Tables) (s : ApplicationSettings)
    (h : s.blueprints = []) :
    checkForErrors T ⟨[], [], [], [], []⟩ s = ([], none) ∧
    ∀ s2 : ApplicationSettings, (checkForErrors T ⟨[], [], [], [], []⟩ s2).2 = none := by
  constructor
  · unfold checkForErrors checkForEntityErrors checkForRelationshipErrors
      checkForEnumErrors checkDeploymentsErrors checkForOptionErrors
    simp [h, JDLObject.getEntityQuantity, JDLObject.getRelationshipQuantity,
      JDLObject.getEnumQuantity, JDLObject.getDeploymentQuantity,
      JDLObject.getOptionQuantity]
  · intro s2
    by_cases hb : s2.blueprints = []
    · unfold checkForErrors checkForEntityErrors checkForRelationshipErrors
        checkForEnumErrors checkDeploymentsErrors checkForOptionErrors
      simp [hb, JDLObject.getEntityQuantity, JDLObject.getRelationshipQuantity,
        JDLObject.getEnumQuantity, JDLObject.getDeploymentQuantity,
        JDLObject.getOptionQuantity]
    · unfold checkForErrors
      simp [List.isEmpty_iff, hb]

/-- Witness for C8 at concrete database-type-free settings. -/
theorem empty_model_checkForErrors_succeeds_witness :
    checkForErrors sampleTables ⟨[], [], [], [], []⟩ ⟨none, none, false, []⟩ =
      ([], none) :=
  (empty_model_checkForErrors_succeeds sampleTables ⟨none, none, false, []⟩ rfl).1

/-- Under the Cassandra database type, the option loop fails with the
Cassandra pagination message as soon as some shape-valid option list contains
an option named pagination. -/
theorem checkForOptionErrorsLoop_cassandra (T : Tables) (s : ApplicationSettings)
    (hdb : s.databaseType = some CASSANDRA) (opts : List JDLOption) (o : JDLOption)
    (hval : ∀ o2 ∈ opts, optionShapeValidation T o2 = none)
    (ho : o ∈ opts) (hname : o.name = PAGINATION) :
    checkForOptionErrorsLoop T s opts =
      some "Pagination isn't allowed when the application uses Cassandra." := by
  induction opts with
  | nil => cases ho
  | cons a l ih =>
    rw [List.mem_cons] at ho
    unfold checkForOptionErrorsLoop
    rw [hval a (List.mem_cons_self a l)]
    rcases ho with ho | ho
    · subst ho
      simp [checkForPaginationInAppWithCassandra, hdb, hname]
    · by_cases hp : a.name = PAGINATION
      · simp [checkForPaginationInAppWithCassandra, hdb, hp]
      · simp [checkForPaginationInAppWithCassandra, hdb, hp]
        exact ih (fun o2 h2 => hval o2 (List.mem_cons_of_mem a h2)) ho

/-- Outside the Cassandra database type, the option loop never fails on a
shape-valid option list. -/
theorem checkForOptionErrorsLoop_not_cassandra (T : Tables) (s : ApplicationSettings)
    (hdb : s.databaseType ≠ some CASSANDRA) (opts : List JDLOption)
    (hval : ∀ o2 ∈ opts, optionShapeValidation T o2 = none) :
    checkForOptionErrorsLoop T s opts = none := by
  induction opts with
  | nil => rfl
  | cons a l ih =>
    unfold checkForOptionErrorsLoop
    rw [hval a (List.mem_cons_self a l)]
    simp [checkForPaginationInAppWithCassandra, hdb]
    exact ih (fun o2 h2 => hval o2 (List.mem_cons_of_mem a h2))

/-- C6: on a model whose options all pass shape validation and contain an
option named pagination, `checkForErrors` fails with exactly the Cassandra
pagination message when the database type is Cassandra, and the option phase
fails on no other database type. -/
theorem pagination_with_cassandra_fails (T : Tables) (s : ApplicationSettings)
    (opts : List JDLOption) (o : JDLOption) (hb : s.blueprints = [])
    (hval : ∀ o2 ∈ opts, optionShapeValidation T o2 = none)
    (ho : o ∈ opts) (hname : o.name = PAGINATION) :
    checkForErrors T ⟨[], [], [], [], opts⟩ s =
      ([], if s.databaseType == some CASSANDRA then
          some "Pagination isn't allowed when the application uses Cassandra."
        else none) := by
  unfold checkForErrors checkForEntityErrors checkForRelationshipErrors
    checkForEnumErrors checkDeploymentsErrors checkForOptionErrors
  have hne : opts ≠ [] := List.ne_nil_of_mem ho
  by_cases hdb : s.databaseType = some CASSANDRA
  · simp [hb, JDLObject.getEntityQuantity, JDLObject.getRelationshipQuantity,
      JDLObject.getEnumQuantity, JDLObject.getDeploymentQuantity,
      JDLObject.getOptionQuantity, List.length_eq_zero, hne, hdb,
      checkForOptionErrorsLoop_cassandra T s hdb opts o hval ho hname]
  · simp [hb, JDLObject.getEntityQuantity, JDLObject.getRelationshipQuantity,
      JDLObject.getEnumQuantity, JDLObject.getDeploymentQuantity,
      JDLObject.getOptionQuantity, List.length_eq_zero, hne, hdb,
      checkForOptionErrorsLoop_not_cassandra T s hdb opts hval]

/-- Witness for C6 at a concrete recognized binary pagination option under
Cassandra. -/
theorem pagination_with_cassandra_fails_witness :
    checkForErrors sampleTables ⟨[], [], [], [], [⟨JDLOptionType.BINARY, "pagination"⟩]⟩
        ⟨none, some "cassandra", false, []⟩ =
      ([], some "Pagination isn't allowed when the application uses Cassandra.") := by
  have h := pagination_with_cassandra_fails sampleTables ⟨none, some "cassandra", false, []⟩
    [⟨JDLOptionType.BINARY, "pagination"⟩] ⟨JDLOptionType.BINARY, "pagination"⟩ rfl
    (by decide) (List.mem_singleton.mpr rfl) rfl
  simpa using h

/-- C10: even when the settings flag `skippedUserManagement` is false, the
relationship check behaves as if it were true whenever the model itself
carries an option named `skipUserManagement`: the effective flag is the
disjunction of the settings flag and the presence of such an option. -/
theorem skipUserManagement_option_enables_flag (s : ApplicationSettings)
    (j : JDLObject) (_hrel : j.getRelationshipQuantity ≠ 0)
    (h1 : s.skippedUserManagement = false)
    (h2 : j.getOptionsForName SKIP_USER_MANAGEMENT ≠ []) :
    checkForRelationshipErrors s j =
      checkForRelationshipErrors { s with skippedUserManagement := true } j := by
  unfold checkForRelationshipErrors
  have h3 : (j.getOptionsForName SKIP_USER_MANAGEMENT).isEmpty = false := by
    simp [List.isEmpty_iff, h2]
  simp [h1, h3]

/-- Witness for C10: a model with a `Source → User` relationship and a unary
`skipUserManagement` option is checked, under a false settings flag, exactly
as under a true settings flag (both fail on the then-absent `User`). -/
theorem skipUserManagement_option_enables_flag_witness :
    checkForRelationshipErrors ⟨none, some "sql", false, []⟩
        ⟨[⟨"Source", "source", []⟩], [⟨"Source", "User", "OneToOne", some "u", none⟩],
          [], [], [⟨JDLOptionType.UNARY, "skipUserManagement"⟩]⟩ =
      checkForRelationshipErrors ⟨none, some "sql", true, []⟩
        ⟨[⟨"Source", "source", []⟩], [⟨"Source", "User", "OneToOne", some "u", none⟩],
          [], [], [⟨JDLOptionType.UNARY, "skipUserManagement"⟩]⟩ :=
  skipUserManagement_option_enables_flag ⟨none, some "sql", false, []⟩ _
    (by decide) rfl (by decide)

/-- The entity loop throws some error whenever some entity in it carries a
reserved class name. -/
theorem checkForEntityErrorsLoop_fails_of_reserved (T : Tables)
    (s : ApplicationSettings) (j : JDLObject) (l : List JDLEntity) (e : JDLEntity)
    (he : e ∈ l) (hres : T.isReservedClassName e.name = true) :
    (checkForEntityErrorsLoop T s j l).2 ≠ none := by
  induction l with
  | nil => cases he
  | cons a rest ih =>
    rw [List.mem_cons] at he
    unfold checkForEntityErrorsLoop
    rcases hv : EntityValidator.validate T a with _ | err
    · rcases he with he | he
      · subst he
        unfold EntityValidator.validate at hv
        simp [hres] at hv
      · rcases hf : checkForFieldErrors T s j a.name a.fields with ⟨w2, r2⟩
        rcases r2 with _ | err2
        · simp only [hf]
          simpa using ih he
        · simp [hf]
    · simp

/-- C2: an entity whose name is a reserved class-name token makes
`checkForErrors` fail; when it is the first entity, the failure carries the
exact reserved-class-name message, and wherever it occurs some fatal error is
thrown. -/
theorem reservedClassName_entity_fails (T : Tables) :
    (∀ (s : ApplicationSettings) (e : JDLEntity) (rest : List JDLEntity)
      (rels : List JDLRelationship) (ens : List JDLEnum) (deps : List JDLDeployment)
      (opts : List JDLOption) (db : String), s.blueprints = [] →
      s.databaseType = some db → T.isReservedClassName e.name = true →
      checkForErrors T ⟨e :: rest, rels, ens, deps, opts⟩ s =
        ([], some (reservedClassNameMessage e.name))) ∧
    (∀ (s : ApplicationSettings) (j : JDLObject) (e : JDLEntity),
      s.blueprints = [] → e ∈ j.entities → T.isReservedClassName e.name = true →
      (checkForErrors T j s).2 ≠ none) := by
  constructor
  · intro s e rest rels ens deps opts db hb hdb hres
    unfold checkForErrors checkForEntityErrors checkForEntityErrorsLoop
      EntityValidator.validate
    simp [hb, hdb, hres, JDLObject.getEntityQuantity]
  · intro s j e hb he hres
    have hq : j.getEntityQuantity ≠ 0 := by
      simp only [JDLObject.getEntityQuantity, ne_eq, List.length_eq_zero]
      exact List.ne_nil_of_mem he
    unfold checkForErrors
    rw [if_neg (by simp [hb])]
    unfold checkForEntityErrors
    by_cases hdb : s.databaseType.isNone
    · simp [hb, hq, hdb]
    · have hloop := checkForEntityErrorsLoop_fails_of_reserved T s j j.entities e he hres
      rcases hl : checkForEntityErrorsLoop T s j j.entities with ⟨w1, r1⟩
      rw [hl] at hloop
      rcases r1 with _ | err
      · simp at hloop
      · simp [hb, hq, hdb, hl]

/-- Witness for C2: the entity `Continue` under the sample tables. -/
theorem reservedClassName_entity_fails_witness :
    checkForErrors sampleTables ⟨[⟨"Continue", "cont", []⟩], [], [], [], []⟩
        ⟨none, some "sql", false, []⟩ =
      ([], some "The name 'Continue' is a reserved keyword and can not be used as an entity class name.") := by
  have h := (reservedClassName_entity_fails sampleTables).1 ⟨none, some "sql", false, []⟩
    ⟨"Continue", "cont", []⟩ [] [] [] [] [] "sql" rfl rfl (by decide)
  exact h.trans (by decide)

/-- Joining a single absent endpoint name with " and " is that name. -/
theorem joinedOfOne (a : String) : String.intercalate " and " [a] = a := by
  unfold String.intercalate String.intercalate.go
  rfl

/-- Joining two absent endpoint names with " and ". -/
theorem joinedOfTwo (a b : String) :
    String.intercalate " and " [a, b] = a ++ " and " ++ b := by
  unfold String.intercalate String.intercalate.go
  rfl

/-- C1 (counterexample): with the `to` endpoint `User` undeclared,
`checkForErrors` succeeds when skip-user-management is false and fails naming
`User` when it is true — the opposite of the claim in both directions. -/
theorem toEndpointUser_claim_refuted :
    checkForErrors sampleTables
        ⟨[⟨"Source", "source", []⟩], [⟨"Source", "User", "OneToOne", some "u", none⟩],
          [], [], []⟩
        ⟨none, some "sql", false, []⟩ = ([], none) ∧
    checkForErrors sampleTables
        ⟨[⟨"Source", "source", []⟩], [⟨"Source", "User", "OneToOne", some "u", none⟩],
          [], [], []⟩
        ⟨none, some "sql", true, []⟩ =
      ([], some "In the relationship between Source and User, User is not declared.") :=
  ⟨rfl, rfl⟩

/-- C1 (amended): for a relationship whose `to` endpoint is the implicit
`User` entity and is not a declared entity of the model, `checkForErrors`
succeeds when skip-user-management is false, and fails naming `User` as
undeclared when skip-user-management is true. -/
theorem toEndpointUser_skippedUserManagement_behavior
    (T : Tables) (s : ApplicationSettings) (srcName tbl rtype inj db : String)
    (hb : s.blueprints = []) (hdb : s.databaseType = some db)
    (hcls : T.isReservedClassName srcName = false)
    (htbl : T.isReservedTableName tbl (some db) = false)
    (hne : (srcName == "User") = false) :
    checkForErrors T
        ⟨[⟨srcName, tbl, []⟩], [⟨srcName, "User", rtype, some inj, none⟩], [], [], []⟩
        s =
      ([], if s.skippedUserManagement then
          some (absentEntitiesMessage srcName "User" "User" "is")
        else none) := by
  have hUser : isUserManagementEntity "User" = true := by decide
  have hIc : String.intercalate " and " ["User"] = "User" := joinedOfOne "User"
  cases hskip : s.skippedUserManagement <;>
    simp [checkForErrors, checkForEntityErrors, checkForEntityErrorsLoop,
      EntityValidator.validate, checkForFieldErrors, checkForFieldErrorsLoop,
      checkForRelationshipErrors, checkForRelationshipErrorsLoop,
      RelationshipValidator.validate, checkForAbsentEntities,
      checkForEnumErrors, checkDeploymentsErrors, checkForOptionErrors,
      JDLObject.getEntity, JDLObject.getOptionsForName,
      JDLObject.getEntityQuantity, JDLObject.getRelationshipQuantity,
      JDLObject.getEnumQuantity, JDLObject.getDeploymentQuantity,
      JDLObject.getOptionQuantity, hb, hdb, hcls, htbl, hne, hskip, hUser, hIc]

/-- Witness for C1 (amended) at concrete inputs, in the failing direction. -/
theorem toEndpointUser_skippedUserManagement_behavior_witness :
    checkForErrors sampleTables
        ⟨[⟨"Source", "source", []⟩], [⟨"Source", "User", "OneToOne", some "u", none⟩],
          [], [], []⟩
        ⟨none, some "sql", true, []⟩ =
      ([], some "In the relationship between Source and User, User is not declared.") := by
  have h := toEndpointUser_skippedUserManagement_behavior sampleTables
    ⟨none, some "sql", true, []⟩ "Source" "source" "OneToOne" "u" "sql"
    rfl rfl (by decide) (by decide) (by decide)
  exact h.trans (by decide)

/-- C3 (counterexample): a relationship whose undeclared `from` endpoint
names the implicit `User` pseudo-entity fails even with skip-user-management
enabled: the exemption claimed for the `from` endpoint does not exist. -/
theorem fromEndpointUser_claim_refuted :
    checkForErrors sampleTables
        ⟨[⟨"Dest", "dest", []⟩], [⟨"User", "Dest", "OneToOne", some "u", none⟩],
          [], [], []⟩
        ⟨none, some "sql", true, []⟩ =
      ([], some "In the relationship between User and Dest, User is not declared.") :=
  rfl

/-- C3 (amended): a missing `from` endpoint is always fatal, for every
endpoint name (the implicit `User`/`Authority` pseudo-entity included) and
for every value of skip-user-management; only the `to` endpoint has a
user-management exemption, and only when the effective skip-user-management
flag is disabled. -/
theorem fromEndpoint_missing_always_fatal
    (T : Tables) (s : ApplicationSettings) (f destName tbl rtype inj db : String)
    (hb : s.blueprints = []) (hdb : s.databaseType = some db)
    (hcls : T.isReservedClassName destName = false)
    (htbl : T.isReservedTableName tbl (some db) = false)
    (hne : (destName == f) = false) :
    checkForErrors T
        ⟨[⟨destName, tbl, []⟩], [⟨f, destName, rtype, some inj, none⟩], [], [], []⟩
        s =
      ([], some (absentEntitiesMessage f destName f "is")) := by
  have hIc : String.intercalate " and " [f] = f := joinedOfOne f
  simp [checkForErrors, checkForEntityErrors, checkForEntityErrorsLoop,
    EntityValidator.validate, checkForFieldErrors, checkForFieldErrorsLoop,
    checkForRelationshipErrors, checkForRelationshipErrorsLoop,
    RelationshipValidator.validate, checkForAbsentEntities,
    checkForEnumErrors, checkDeploymentsErrors, checkForOptionErrors,
    JDLObject.getEntity, JDLObject.getOptionsForName,
    JDLObject.getEntityQuantity, JDLObject.getRelationshipQuantity,
    JDLObject.getEnumQuantity, JDLObject.getDeploymentQuantity,
    JDLObject.getOptionQuantity, hb, hdb, hcls, htbl, hne, hIc]

/-- Witness for C3 (amended): a `User → Dest` relationship with `User`
undeclared fails despite skip-user-management being enabled. -/
theorem fromEndpoint_missing_always_fatal_witness :
    checkForErrors sampleTables
        ⟨[⟨"Dest", "dest", []⟩], [⟨"User", "Dest", "OneToOne", some "u", none⟩],
          [], [], []⟩
        ⟨none, some "sql", true, []⟩ =
      ([], some "In the relationship between User and Dest, User is not declared.") := by
  have h := fromEndpoint_missing_always_fatal sampleTables ⟨none, some "sql", true, []⟩
    "User" "Dest" "dest" "OneToOne" "u" "sql" rfl rfl (by decide) (by decide) (by decide)
  exact h.trans (by decide)

/-- C4: a relationship with absent non-exempt endpoints throws one combined
error: with both endpoints absent, both names joined by " and " with the
verb "are"; with exactly one absent, that name alone with the verb "is". -/
theorem absent_endpoints_combined_message
    (T : Tables) (s : ApplicationSettings) (f t tbl rtype inj db : String)
    (hb : s.blueprints = []) (hdb : s.databaseType = some db)
    (ht : isUserManagementEntity t = false)
    (hcls : T.isReservedClassName t = false)
    (htbl : T.isReservedTableName tbl (some db) = false)
    (hne : (t == f) = false) :
    checkForErrors T ⟨[], [⟨f, t, rtype, some inj, none⟩], [], [], []⟩ s =
      ([], some (absentEntitiesMessage f t (f ++ " and " ++ t) "are")) ∧
    checkForErrors T ⟨[⟨t, tbl, []⟩], [⟨f, t, rtype, some inj, none⟩], [], [], []⟩ s =
      ([], some (absentEntitiesMessage f t f "is")) := by
  have hIc2 : String.intercalate " and " [f, t] = f ++ " and " ++ t := joinedOfTwo f t
  have hIc1 : String.intercalate " and " [f] = f := joinedOfOne f
  constructor <;>
    simp [checkForErrors, checkForEntityErrors, checkForEntityErrorsLoop,
      EntityValidator.validate, checkForFieldErrors, checkForFieldErrorsLoop,
      checkForRelationshipErrors, checkForRelationshipErrorsLoop,
      RelationshipValidator.validate, checkForAbsentEntities,
      checkForEnumErrors, checkDeploymentsErrors, checkForOptionErrors,
      JDLObject.getEntity, JDLObject.getOptionsForName,
      JDLObject.getEntityQuantity, JDLObject.getRelationshipQuantity,
      JDLObject.getEnumQuantity, JDLObject.getDeploymentQuantity,
      JDLObject.getOptionQuantity, hb, hdb, ht, hcls, htbl, hne, hIc2, hIc1]

/-- Witness for C4: both `A` and `B` absent gives the combined "are" message
with both names. -/
theorem absent_endpoints_combined_message_witness :
    checkForErrors sampleTables ⟨[], [⟨"A", "B", "OneToOne", some "u", none⟩], [], [], []⟩
        ⟨none, some "sql", false, []⟩ =
      ([], some "In the relationship between A and B, A and B are not declared.") := by
  have h := absent_endpoints_combined_message sampleTables ⟨none, some "sql", false, []⟩
    "A" "B" "b" "OneToOne" "u" "sql" rfl rfl (by decide) (by decide) (by decide) (by decide)
  exact h.1.trans (by decide)

/-- The enumeration phase never fails on any model. -/
theorem checkForEnumErrors_eq_none (j : JDLObject) : checkForEnumErrors j = none := by
  unfold checkForEnumErrors
  split
  · rfl
  · exact checkForEnumErrorsLoop_eq_none j.enums

/-- The deployment phase never fails on any model. -/
theorem checkDeploymentsErrors_eq_none (j : JDLObject) :
    checkDeploymentsErrors j = none := by
  unfold checkDeploymentsErrors
  split
  · rfl
  · exact checkDeploymentsErrorsLoop_eq_none j.deployments

/-- C5: a field's type is accepted exactly when it names a declared
enumeration of the model or the active type-checking predicate accepts it;
otherwise `checkForErrors` fails with the exact unknown-field-type message.
The predicate accepts every type name on a gateway application and is the
active database type's type universe otherwise. -/
theorem field_type_acceptance
    (T : Tables) (s : ApplicationSettings) (ename tbl fkey fname ftype db : String)
    (ens : List JDLEnum)
    (hb : s.blueprints = []) (hdb : s.databaseType = some db)
    (hcls : T.isReservedClassName ename = false)
    (htbl : T.isReservedTableName tbl (some db) = false)
    (hfld : T.isReservedFieldName fname = false)
    (hpag : T.isReservedPaginationWords fname = false) :
    (checkForErrors T ⟨[⟨ename, tbl, [(fkey, ⟨fname, ftype, []⟩)]⟩], [], ens, [], []⟩ s =
      ([], if (ens.any fun e => e.name == ftype) || getTypeCheckingFunction T ename s ftype
          then none
        else some (unknownTypeMessage ftype fkey ename))) ∧
    (s.applicationType = some GATEWAY → ∀ ty, getTypeCheckingFunction T ename s ty = true) ∧
    (s.applicationType ≠ some GATEWAY →
      getTypeCheckingFunction T ename s = T.getIsType s.databaseType) := by
  refine ⟨?_, ?_, ?_⟩
  · cases hE : (ens.any fun e => e.name == ftype) <;>
      cases hP : getTypeCheckingFunction T ename s ftype <;>
      simp [checkForErrors, checkForEntityErrors, checkForEntityErrorsLoop,
        EntityValidator.validate, FieldValidator.validate,
        checkForFieldErrors, checkForFieldErrorsLoop,
        checkForValidationErrors, checkForValidationErrorsLoop,
        checkForRelationshipErrors, checkForOptionErrors,
        checkForEnumErrors_eq_none, checkDeploymentsErrors_eq_none,
        JDLObject.hasEnum, JDLObject.getEntityQuantity,
        JDLObject.getRelationshipQuantity, JDLObject.getOptionQuantity,
        hb, hdb, hcls, htbl, hfld, hpag, hE, hP]
  · intro hg ty
    simp [getTypeCheckingFunction, hg]
  · intro hg
    have : (s.applicationType == some GATEWAY) = false := by
      simpa using hg
    simp [getTypeCheckingFunction, this]

/-- Witness for C5: the unknown type `Blob` on a non-gateway SQL application
is rejected with the exact message. -/
theorem field_type_acceptance_witness :
    checkForErrors sampleTables ⟨[⟨"E", "e", [("f", ⟨"f", "Blob", []⟩)]⟩], [], [], [], []⟩
        ⟨none, some "sql", false, []⟩ =
      ([], some "The type 'Blob' is an unknown field type for field 'f' of entity 'E'.") := by
  have h := (field_type_acceptance sampleTables ⟨none, some "sql", false, []⟩
    "E" "e" "f" "f" "Blob" "sql" [] rfl rfl (by decide) (by decide) (by decide)
    (by decide)).1
  exact h.trans (by decide)

/-- C9: under the SQL database type a pagination-sensitive field name is
fatal with the exact pagination-word message; under any other database type
that same collision is not fatal and validation succeeds; and a plain
reserved field name (not a pagination word) only produces the advisory
jhiPrefix warning while validation succeeds, whatever the database type. -/
theorem field_reserved_words_severity
    (T : Tables) (s : ApplicationSettings) (ename tbl fkey fname ftype : String)
    (hb : s.blueprints = [])
    (hcls : T.isReservedClassName ename = false) :
    (s.databaseType = some SQL →
      T.isReservedPaginationWords fname = true →
      T.isReservedFieldName fname = false →
      T.isReservedTableName tbl (some SQL) = false →
      checkForErrors T ⟨[⟨ename, tbl, [(fkey, ⟨fname, ftype, []⟩)]⟩], [], [], [], []⟩ s =
        ([], some (paginationWordMessage fkey ename))) ∧
    (∀ db, s.databaseType = some db → db ≠ SQL →
      T.isReservedPaginationWords fname = true →
      T.isReservedFieldName fname = false →
      T.isReservedTableName tbl (some db) = false →
      getTypeCheckingFunction T ename s ftype = true →
      checkForErrors T ⟨[⟨ename, tbl, [(fkey, ⟨fname, ftype, []⟩)]⟩], [], [], [], []⟩ s =
        ([], none)) ∧
    (∀ db, s.databaseType = some db →
      T.isReservedFieldName fname = true →
      T.isReservedPaginationWords fname = false →
      T.isReservedTableName tbl (some db) = false →
      getTypeCheckingFunction T ename s ftype = true →
      checkForErrors T ⟨[⟨ename, tbl, [(fkey, ⟨fname, ftype, []⟩)]⟩], [], [], [], []⟩ s =
        ([reservedFieldNameMessage fname], none)) := by
  refine ⟨?_, ?_, ?_⟩
  · intro hdb hword hfld htbl
    simp [checkForErrors, checkForEntityErrors, checkForEntityErrorsLoop,
      EntityValidator.validate, FieldValidator.validate,
      checkForFieldErrors, checkForFieldErrorsLoop,
      JDLObject.getEntityQuantity, hb, hdb, hcls, htbl, hfld, hword]
  · intro db hdb hne hword hfld htbl hpred
    have hds : (s.databaseType == some SQL) = false := by
      rw [hdb]
      simpa using hne
    simp [checkForErrors, checkForEntityErrors, checkForEntityErrorsLoop,
      EntityValidator.validate, FieldValidator.validate,
      checkForFieldErrors, checkForFieldErrorsLoop,
      checkForValidationErrors, checkForValidationErrorsLoop,
      checkForRelationshipErrors, checkForOptionErrors,
      checkForEnumErrors_eq_none, checkDeploymentsErrors_eq_none,
      JDLObject.hasEnum, JDLObject.getEntityQuantity,
      JDLObject.getRelationshipQuantity, JDLObject.getOptionQuantity,
      hb, hdb, hne, hcls, htbl, hfld, hword, hds, hpred]
  · intro db hdb hfld hword htbl hpred
    simp [checkForErrors, checkForEntityErrors, checkForEntityErrorsLoop,
      EntityValidator.validate, FieldValidator.validate,
      checkForFieldErrors, checkForFieldErrorsLoop,
      checkForValidationErrors, checkForValidationErrorsLoop,
      checkForRelationshipErrors, checkForOptionErrors,
      checkForEnumErrors_eq_none, checkDeploymentsErrors_eq_none,
      JDLObject.hasEnum, JDLObject.getEntityQuantity,
      JDLObject.getRelationshipQuantity, JDLObject.getOptionQuantity,
      hb, hdb, hcls, htbl, hfld, hword, hpred]

/-- Witness for C9: the pagination-sensitive field name `page` (not a
reserved field name) is fatal under SQL with the exact message and harmless
under MongoDB; the reserved field name `reservedField` only warns. -/
theorem field_reserved_words_severity_witness :
    (checkForErrors sampleTables ⟨[⟨"E", "e", [("page", ⟨"page", "String", []⟩)]⟩],
        [], [], [], []⟩ ⟨none, some "sql", false, []⟩ =
      ([], some "Field name 'page' found in E is a reserved keyword, as it is used by Spring for pagination in the URL.")) ∧
    (checkForErrors sampleTables ⟨[⟨"E", "e", [("page", ⟨"page", "String", []⟩)]⟩],
        [], [], [], []⟩ ⟨none, some "mongodb", false, []⟩ = ([], none)) ∧
    (checkForErrors sampleTables
        ⟨[⟨"E", "e", [("reservedField", ⟨"reservedField", "String", []⟩)]⟩],
          [], [], [], []⟩ ⟨none, some "mongodb", false, []⟩ =
      (["The name 'reservedField' is a reserved keyword, so it will be prefixed with the value of 'jhiPrefix'."], none)) := by
  refine ⟨?_, ?_, ?_⟩
  · have h := (field_reserved_words_severity sampleTables ⟨none, some "sql", false, []⟩
      "E" "e" "page" "page" "String" rfl (by decide)).1 rfl (by decide) (by decide)
      (by decide)
    exact h.trans (by decide)
  · exact (field_reserved_words_severity sampleTables ⟨none, some "mongodb", false, []⟩
      "E" "e" "page" "page" "String" rfl (by decide)).2.1 "mongodb" rfl (by decide)
      (by decide) (by decide) (by decide) (by decide)
  · have h := (field_reserved_words_severity sampleTables ⟨none, some "mongodb", false, []⟩
      "E" "e" "reservedField" "reservedField" "String" rfl (by decide)).2.2 "mongodb"
      rfl (by decide) (by decide) (by decide) (by decide)
    exact h.trans (by decide)

end JdlWithoutApplicationValidator
